import Mathlib

/-
Shallow embedding of the BitChatRelay bridge (BLE <-> zh_network ESP-NOW mesh).

The repository contains two variants of the same sketch:
  * variant 1: src/BlEPeer.ino        (NimBLE stack)
  * variant 2: src/unnamed/part_000   (Bluedroid BLE stack)

Each variant is embedded separately.  Handlers are modelled as pure
functions from their inputs to the list of externally visible effects they
perform (mesh sends, set-value calls, per-client notifications, buffer
frees), and the whole bridge as a step function on an explicit state.
-/

namespace BitChatRelay

/-- Payload bytes are modelled as a list of naturals. -/
abbrev Payload := List Nat

/-- A MAC address of a mesh peer. -/
abbrev MacAddr := List Nat

/-- One call to zh_network_send: `target = none` is the NULL first argument,
meaning broadcast; `some a` would be a unicast to peer `a`. -/
structure MeshSend where
  target : Option MacAddr
  data : Payload
deriving Repr, DecidableEq

/-- Externally visible effects of one BLE characteristic write handler run:
the mesh sends issued, the set-value calls on the characteristic (in order),
and the per-client notifications `(connection handle, notified value)`. -/
structure WriteEffects where
  meshSends : List MeshSend
  setValues : List Payload
  notifies : List (Nat × Payload)
deriving Repr, DecidableEq

/-- Variant 1 (src/BlEPeer.ino, CharacteristicCallbacks::onWrite, lines 69-85):
if the written value is non-empty, forward it to the mesh with
`zh_network_send(NULL, data, length)`, set the characteristic value to it,
and notify every connected peer whose connection handle differs from the
writer's.  A zero-length write does nothing. -/
def onWrite (data : Payload) (writer : Nat) (peerDevices : List Nat) :
    WriteEffects :=
  if 0 < data.length then
    { meshSends := [⟨none, data⟩]
      setValues := [data]
      notifies := (peerDevices.filter (fun h => h != writer)).map
        (fun h => (h, data)) }
  else
    { meshSends := [], setValues := [], notifies := [] }

/-- Variant 2 (src/unnamed/part_000, CharacteristicCallbacks::onWrite,
lines 87-90): unconditionally `zh_network_send(NULL, getData, getLength)`;
no length check, no set-value, no notification. -/
def onWrite2 (data : Payload) : WriteEffects :=
  { meshSends := [⟨none, data⟩], setValues := [], notifies := [] }

/-- Events raised by the zh_network library to the registered handler. -/
inductive ZhEvent where
  | onRecv (mac : MacAddr) (data : Payload)
  | onSend (mac : MacAddr) (success : Bool)
  | other (id : Int)
deriving Repr, DecidableEq

/-- Externally visible effects of one mesh event handler run: set-value
calls, per-client notifications, mesh sends, and the number of
`heap_caps_free` calls on the received buffer. -/
structure RecvEffects where
  setValues : List Payload
  notifies : List (Nat × Payload)
  meshSends : List MeshSend
  frees : Nat
deriving Repr, DecidableEq

/-- Variant 1 (src/BlEPeer.ino, onZhNetworkEvent, lines 95-112): on a
receive event, if the characteristic pointer is non-null, set its value to
the received payload and notify all subscribed clients; then free the
received buffer unconditionally.  Other event ids do nothing.
`charPresent` models `pBleCharacteristic != nullptr` and `subscribed` the
clients reached by `notify()`. -/
def onZhNetworkEvent (charPresent : Bool) (subscribed : List Nat) :
    ZhEvent → RecvEffects
  | .onRecv _ data =>
    if charPresent then
      { setValues := [data]
        notifies := subscribed.map (fun h => (h, data))
        meshSends := []
        frees := 1 }
    else
      { setValues := [], notifies := [], meshSends := [], frees := 1 }
  | .onSend _ _ => { setValues := [], notifies := [], meshSends := [], frees := 0 }
  | .other _ => { setValues := [], notifies := [], meshSends := [], frees := 0 }

/-- Variant 2 (src/unnamed/part_000, zh_network_event_handler, lines
159-194): the RECV case is identical to variant 1 (guarded set-value and
notify-all, then an unconditional free); the SEND case only formats a log
line from the status and MAC; the default case does nothing. -/
def zh_network_event_handler (charPresent : Bool) (subscribed : List Nat) :
    ZhEvent → RecvEffects
  | .onRecv _ data =>
    if charPresent then
      { setValues := [data]
        notifies := subscribed.map (fun h => (h, data))
        meshSends := []
        frees := 1 }
    else
      { setValues := [], notifies := [], meshSends := [], frees := 1 }
  | .onSend _ _ => { setValues := [], notifies := [], meshSends := [], frees := 0 }
  | .other _ => { setValues := [], notifies := [], meshSends := [], frees := 0 }

/-- Result of initBLE (src/BlEPeer.ino, lines 152-192): which pointers got
assigned and whether the service and advertising were started.  The three
Booleans passed in say whether `createServer`, `createService` and
`createCharacteristic` succeed; each failure hits an early `return`. -/
structure BLEInit where
  serverSet : Bool
  serviceSet : Bool
  charSet : Bool
  serviceStarted : Bool
  advertisingStarted : Bool
deriving Repr, DecidableEq

/-- Variant 1 initBLE: early return after each failed creation, so a
failure leaves `pBleCharacteristic` null and never starts the service or
advertising; on full success everything is set and advertising starts. -/
def initBLE (serverOk serviceOk charOk : Bool) : BLEInit :=
  if !serverOk then
    { serverSet := false, serviceSet := false, charSet := false
      serviceStarted := false, advertisingStarted := false }
  else if !serviceOk then
    { serverSet := true, serviceSet := false, charSet := false
      serviceStarted := false, advertisingStarted := false }
  else if !charOk then
    { serverSet := true, serviceSet := true, charSet := false
      serviceStarted := false, advertisingStarted := false }
  else
    { serverSet := true, serviceSet := true, charSet := true
      serviceStarted := true, advertisingStarted := true }

/-- Result of setup (src/BlEPeer.ino, lines 198-213): setup calls initBLE
and then initZhNetworkMesh unconditionally, so the mesh subsystem is
initialized regardless of how BLE initialization went. -/
structure SetupResult where
  ble : BLEInit
  meshInited : Bool
deriving Repr, DecidableEq

/-- Variant 1 setup: `initBLE(); initZhNetworkMesh();` in sequence, with no
dependence of the latter on the former. -/
def setup (serverOk serviceOk charOk : Bool) : SetupResult :=
  { ble := initBLE serverOk serviceOk charOk, meshInited := true }

/-- Events driving the whole bridge, in the order the transports raise
them: BLE client connect/disconnect, BLE characteristic write, mesh
receive, and mesh send-result. -/
inductive Event where
  | connect (h : Nat)
  | disconnect (h : Nat)
  | write (writer : Nat) (data : Payload)
  | recv (mac : MacAddr) (data : Payload)
  | sendResult (mac : MacAddr) (success : Bool)
deriving Repr, DecidableEq

/-- Whole-bridge state: whether the characteristic exists, its current
value (`none` before any set-value call), the connected client handles,
whether advertising is running, and cumulative effect logs.  `setLog`
records every payload ever passed to set-value, in order. -/
structure BridgeState where
  charPresent : Bool
  charValue : Option Payload
  clients : List Nat
  advertising : Bool
  sendLog : List MeshSend
  notifyLog : List (Nat × Payload)
  freeCount : Nat
  setLog : List Payload
deriving Repr, DecidableEq

/-- State right after a completed initialization: no clients, no value yet,
advertising running exactly when the characteristic came up (variant 1's
initBLE only reaches the advertising start after the characteristic is
created). -/
def initState (charPresent : Bool) : BridgeState :=
  { charPresent := charPresent, charValue := none, clients := []
    advertising := charPresent, sendLog := [], notifyLog := []
    freeCount := 0, setLog := [] }

/-- Variant 1 step function.  On connect and disconnect the underlying BLE
stack stops advertising for the affected link, and both ServerCallbacks
handlers (src/BlEPeer.ino lines 52-62) call
`NimBLEDevice::getAdvertising()->start()`, so advertising is running again
when the handler returns.  Write and receive apply the respective handler
effects; a send-result event is consumed for logging only. -/
def step (s : BridgeState) : Event → BridgeState
  | .connect h => { s with clients := s.clients ++ [h], advertising := true }
  | .disconnect h => { s with clients := s.clients.erase h, advertising := true }
  | .write w d =>
    if s.charPresent then
      let eff := onWrite d w s.clients
      { s with
        charValue := if 0 < d.length then some d else s.charValue
        sendLog := s.sendLog ++ eff.meshSends
        notifyLog := s.notifyLog ++ eff.notifies
        setLog := s.setLog ++ eff.setValues }
    else s
  | .recv mac d =>
    let eff := onZhNetworkEvent s.charPresent s.clients (.onRecv mac d)
    { s with
      charValue := if s.charPresent then some d else s.charValue
      notifyLog := s.notifyLog ++ eff.notifies
      freeCount := s.freeCount + eff.frees
      setLog := s.setLog ++ eff.setValues }
  | .sendResult _ _ => s

/-- Variant 2 step function.  The BLE stack stops advertising when a
connection is established and this variant's onConnect (src/unnamed/part_000
lines 62-64) only logs, so advertising stays stopped while connecting;
onDisconnect (lines 71-74) calls `pServer->startAdvertising()`.  A write
forwards to the mesh unconditionally with no set-value and no notify;
receive and send-result behave as in zh_network_event_handler. -/
def step2 (s : BridgeState) : Event → BridgeState
  | .connect h => { s with clients := s.clients ++ [h], advertising := false }
  | .disconnect h => { s with clients := s.clients.erase h, advertising := true }
  | .write _ d =>
    if s.charPresent then
      let eff := onWrite2 d
      { s with
        sendLog := s.sendLog ++ eff.meshSends
        notifyLog := s.notifyLog ++ eff.notifies
        setLog := s.setLog ++ eff.setValues }
    else s
  | .recv mac d =>
    let eff := zh_network_event_handler s.charPresent s.clients (.onRecv mac d)
    { s with
      charValue := if s.charPresent then some d else s.charValue
      notifyLog := s.notifyLog ++ eff.notifies
      freeCount := s.freeCount + eff.frees
      setLog := s.setLog ++ eff.setValues }
  | .sendResult _ _ => s

/-- Run a sequence of events from a starting state. -/
def run (s : BridgeState) (es : List Event) : BridgeState :=
  es.foldl step s

/-- Run a sequence of events from a starting state, variant 2. -/
def run2 (s : BridgeState) (es : List Event) : BridgeState :=
  es.foldl step2 s

/-- Channel Value tracks set-value calls: the characteristic value equals
the last payload ever passed to a set-value call (and is unset before the
first such call). -/
def valueInv (s : BridgeState) : Prop :=
  s.charValue = s.setLog.getLast?

lemma getLast?_append_singleton {α : Type} (l : List α) (a : α) :
    (l ++ [a]).getLast? = some a := by
  exact List.getLast?_concat l

lemma valueInv_step (s : BridgeState) (e : Event) (h : valueInv s) :
    valueInv (step s e) := by
  cases e with
  | connect c => simpa [valueInv, step] using h
  | disconnect c => simpa [valueInv, step] using h
  | write w d =>
    by_cases hc : s.charPresent = true
    · by_cases hd : 0 < d.length
      · simp [valueInv, step, onWrite, hc, hd, getLast?_append_singleton]
      · simpa [valueInv, step, onWrite, hc, hd] using h
    · simpa [valueInv, step, hc] using h
  | recv mac d =>
    by_cases hc : s.charPresent = true
    · simp [valueInv, step, onZhNetworkEvent, hc, getLast?_append_singleton]
    · simpa [valueInv, step, onZhNetworkEvent, hc] using h
  | sendResult mac ok => simpa [valueInv, step] using h

lemma valueInv_step2 (s : BridgeState) (e : Event) (h : valueInv s) :
    valueInv (step2 s e) := by
  cases e with
  | connect c => simpa [valueInv, step2] using h
  | disconnect c => simpa [valueInv, step2] using h
  | write w d =>
    by_cases hc : s.charPresent = true
    · simpa [valueInv, step2, onWrite2, hc] using h
    · simpa [valueInv, step2, hc] using h
  | recv mac d =>
    by_cases hc : s.charPresent = true
    · simp [valueInv, step2, zh_network_event_handler, hc,
        getLast?_append_singleton]
    · simpa [valueInv, step2, zh_network_event_handler, hc] using h
  | sendResult mac ok => simpa [valueInv, step2] using h

lemma valueInv_run (s : BridgeState) (es : List Event) (h : valueInv s) :
    valueInv (run s es) := by
  induction es generalizing s with
  | nil => exact h
  | cons e es ih => exact ih (step s e) (valueInv_step s e h)

lemma valueInv_run2 (s : BridgeState) (es : List Event) (h : valueInv s) :
    valueInv (run2 s es) := by
  induction es generalizing s with
  | nil => exact h
  | cons e es ih => exact ih (step2 s e) (valueInv_step2 s e h)

lemma adv_step (s : BridgeState) (e : Event) (h : s.advertising = true) :
    (step s e).advertising = true := by
  cases e with
  | connect c => rfl
  | disconnect c => rfl
  | write w d =>
    by_cases hc : s.charPresent = true <;> simp [step, hc] <;> exact h
  | recv mac d => simpa [step] using h
  | sendResult mac ok => exact h

lemma adv_run (s : BridgeState) (es : List Event) (h : s.advertising = true) :
    (run s es).advertising = true := by
  induction es generalizing s with
  | nil => exact h
  | cons e es ih => exact ih (step s e) (adv_step s e h)

/-- C1: every payload with length in the valid (non-zero) range written to
the link characteristic is forwarded by both variants' write handlers as
exactly one mesh send carrying the same bytes, addressed with a null
(broadcast) target; moreover no mesh send issued by either write handler,
on any input, ever targets a specific peer. -/
theorem c1_link_write_broadcasts (data : Payload) (writer : Nat)
    (peers : List Nat) (h : 0 < data.length) :
    (onWrite data writer peers).meshSends = [⟨none, data⟩] ∧
    (onWrite2 data).meshSends = [⟨none, data⟩] ∧
    (∀ (d : Payload) (w : Nat) (p : List Nat) (ms : MeshSend),
      ms ∈ (onWrite d w p).meshSends → ms.target = none) ∧
    (∀ (d : Payload) (ms : MeshSend),
      ms ∈ (onWrite2 d).meshSends → ms.target = none) := by
  refine ⟨by simp [onWrite, h], rfl, ?_, ?_⟩
  · intro d w p ms hm
    by_cases hd : 0 < d.length
    · simp [onWrite, hd] at hm
      simp [hm]
    · simp [onWrite, hd] at hm
  · intro d ms hm
    simp [onWrite2] at hm
    simp [hm]

/-- C1 witness at the two-byte payload [7, 8]. -/
theorem c1_link_write_broadcasts_witness :
    0 < ([7, 8] : Payload).length ∧
    (onWrite [7, 8] 0 [0, 1]).meshSends = [⟨none, [7, 8]⟩] :=
  ⟨by decide, (c1_link_write_broadcasts [7, 8] 0 [0, 1] (by decide)).1⟩

/-- C2: on every mesh receive event both variants free the received buffer
exactly once, whether or not the characteristic exists and whatever the set
of subscribed clients; equivalently, a receive step increments the bridge's
free count by exactly one from any state. -/
theorem c2_recv_frees_exactly_once (charPresent : Bool)
    (subscribed : List Nat) (mac : MacAddr) (data : Payload) :
    (onZhNetworkEvent charPresent subscribed (.onRecv mac data)).frees = 1 ∧
    (zh_network_event_handler charPresent subscribed
      (.onRecv mac data)).frees = 1 ∧
    (∀ s : BridgeState, (step s (.recv mac data)).freeCount
      = s.freeCount + 1) ∧
    (∀ s : BridgeState, (step2 s (.recv mac data)).freeCount
      = s.freeCount + 1) := by
  refine ⟨?_, ?_, ?_, ?_⟩
  · cases charPresent <;> simp [onZhNetworkEvent]
  · cases charPresent <;> simp [zh_network_event_handler]
  · intro s
    by_cases hc : s.charPresent = true <;>
      simp [step, onZhNetworkEvent, hc]
  · intro s
    by_cases hc : s.charPresent = true <;>
      simp [step2, zh_network_event_handler, hc]

/-- C3 counterexample: in the part_000 variant a zero-length write is not a
no-op — the handler still calls the mesh send, broadcasting the zero-length
payload. -/
theorem c3_empty_write_counterexample :
    (onWrite2 []).meshSends = [⟨none, []⟩] ∧
    (onWrite2 []).meshSends ≠ [] := by
  decide

/-- C3 (amended): in the BlEPeer.ino variant a zero-length write is a
complete no-op (no mesh send, no set-value call, no notification); in the
part_000 variant a zero-length write performs no set-value call and no
notification but still issues one mesh broadcast carrying the zero-length
payload. -/
theorem c3_empty_write_amended (writer : Nat) (peers : List Nat) :
    onWrite [] writer peers = ⟨[], [], []⟩ ∧
    onWrite2 [] = ⟨[⟨none, []⟩], [], []⟩ := by
  exact ⟨by simp [onWrite], rfl⟩

/-- C4: when the characteristic exists, a mesh receive of payload Q sets
the Channel Value to Q and appends one notification of Q for each currently
subscribed client, the whole step being independent of the sender address;
with no subscribed clients the value is still updated and the notification
log is unchanged.  Both variants behave identically here. -/
theorem c4_mesh_fanin (s : BridgeState) (mac mac2 : MacAddr) (q : Payload)
    (h : s.charPresent = true) :
    (step s (.recv mac q)).charValue = some q ∧
    (step s (.recv mac q)).notifyLog
      = s.notifyLog ++ s.clients.map (fun c => (c, q)) ∧
    step s (.recv mac q) = step s (.recv mac2 q) ∧
    (s.clients = [] → (step s (.recv mac q)).notifyLog = s.notifyLog) ∧
    (step2 s (.recv mac q)).charValue = some q ∧
    (step2 s (.recv mac q)).notifyLog
      = s.notifyLog ++ s.clients.map (fun c => (c, q)) := by
  refine ⟨?_, ?_, rfl, ?_, ?_, ?_⟩
  · simp [step, h]
  · simp [step, onZhNetworkEvent, h]
  · intro hc
    simp [step, onZhNetworkEvent, h, hc]
  · simp [step2, h]
  · simp [step2, zh_network_event_handler, h]

/-- C4 witness at the initialized state with payload [9]. -/
theorem c4_mesh_fanin_witness :
    (initState true).charPresent = true ∧
    (step (initState true) (.recv [1] [9])).charValue = some [9] :=
  ⟨rfl, (c4_mesh_fanin (initState true) [1] [2] [9] rfl).1⟩

/-- C5: in the mirroring variant (BlEPeer.ino), when client c writes a
non-empty payload p while clients c, d, e are connected, the handler sets
the Channel Value to p and notifies exactly d and e, each once, with value
p — the writer c receives no notification from its own write. -/
theorem c5_fanout_exclusion (p : Payload) (c d e : Nat)
    (hp : 0 < p.length) (hdc : d ≠ c) (hec : e ≠ c) (_hde : d ≠ e) :
    (onWrite p c [c, d, e]).setValues = [p] ∧
    (onWrite p c [c, d, e]).notifies = [(d, p), (e, p)] := by
  constructor <;> simp [onWrite, hp, hdc, hec]

/-- C5 witness with clients 0, 1, 2, writer 0 and payload [7]. -/
theorem c5_fanout_exclusion_witness :
    (0 < ([7] : Payload).length ∧ (1 : Nat) ≠ 0 ∧ (2 : Nat) ≠ 0 ∧
      (1 : Nat) ≠ 2) ∧
    (onWrite [7] 0 [0, 1, 2]).notifies = [(1, [7]), (2, [7])] :=
  ⟨by decide, (c5_fanout_exclusion [7] 0 1 2 (by decide) (by decide)
    (by decide) (by decide)).2⟩

/-- C6: after any sequence of bridge events from the post-init state, in
both variants the Channel Value equals the last payload passed to a
set-value call (and is still unset when no set-value call has occurred), so
no operation leaves a stale value. -/
theorem c6_value_tracks_last_set (charPresent : Bool) (es : List Event) :
    (run (initState charPresent) es).charValue
      = (run (initState charPresent) es).setLog.getLast? ∧
    (run2 (initState charPresent) es).charValue
      = (run2 (initState charPresent) es).setLog.getLast? :=
  ⟨valueInv_run (initState charPresent) es rfl,
   valueInv_run2 (initState charPresent) es rfl⟩

/-- C7 counterexample: in the part_000 variant the onConnect handler does
not restart advertising, so immediately after a client connects the bridge
is in a reachable state with advertising off — advertising is not restarted
on each client connect. -/
theorem c7_advertising_counterexample :
    (run2 (initState true) [.connect 0]).advertising = false := by
  decide

/-- C7 (amended): in the BlEPeer.ino variant advertising is on in every
state reachable from a completed initialization, since both the connect and
the disconnect handler restart it; in the part_000 variant advertising
stops while a client is connected and only the disconnect handler restarts
it, so after any event sequence ending in a disconnect — in particular
after the last client disconnects — the device is discoverable again with
no external restart call. -/
theorem c7_advertising_amended (es : List Event) (h : Nat) :
    (run (initState true) es).advertising = true ∧
    (run2 (initState true) (es ++ [.disconnect h])).advertising = true := by
  constructor
  · exact adv_run (initState true) es rfl
  · rw [run2, List.foldl_append]
    rfl

/-- C8: a mesh send-result event, successful or failed, is consumed for
logging only: it leaves the entire bridge state unchanged in both variants,
and the event handlers issue no mesh send, no set-value call, no
notification and no buffer free for it. -/
theorem c8_send_result_frame (s : BridgeState) (mac : MacAddr) (ok : Bool)
    (charPresent : Bool) (subscribed : List Nat) :
    step s (.sendResult mac ok) = s ∧
    step2 s (.sendResult mac ok) = s ∧
    onZhNetworkEvent charPresent subscribed (.onSend mac ok)
      = ⟨[], [], [], 0⟩ ∧
    zh_network_event_handler charPresent subscribed (.onSend mac ok)
      = ⟨[], [], [], 0⟩ :=
  ⟨rfl, rfl, rfl, rfl⟩

/-- C9: if creating the BLE server, service or characteristic fails, the
characteristic pointer stays null, yet setup still brings up the mesh, and
a mesh receive in that state performs no set-value call and no notification
while still freeing the buffer exactly once. -/
theorem c9_init_failure (serverOk serviceOk charOk : Bool)
    (hfail : serverOk = false ∨ serviceOk = false ∨ charOk = false) :
    (initBLE serverOk serviceOk charOk).charSet = false ∧
    (setup serverOk serviceOk charOk).meshInited = true ∧
    (∀ (subscribed : List Nat) (mac : MacAddr) (q : Payload),
      onZhNetworkEvent (initBLE serverOk serviceOk charOk).charSet
        subscribed (.onRecv mac q) = ⟨[], [], [], 1⟩) := by
  have hc : (initBLE serverOk serviceOk charOk).charSet = false := by
    cases serverOk <;> cases serviceOk <;> cases charOk <;>
      simp_all [initBLE]
  refine ⟨hc, rfl, ?_⟩
  intro subscribed mac q
  rw [hc]
  rfl

/-- C9 witness at a failed service creation. -/
theorem c9_init_failure_witness :
    ((true : Bool) = false ∨ (false : Bool) = false ∨
      (true : Bool) = false) ∧
    (initBLE true false true).charSet = false :=
  ⟨by decide, (c9_init_failure true false true (by decide)).1⟩

/-- C10: on every non-empty payload the two variants' write handlers issue
the identical mesh send: one broadcast (null target) of exactly those
bytes, so their link-to-mesh forwarding paths agree on non-empty inputs. -/
theorem c10_variants_agree (data : Payload) (writer : Nat)
    (peers : List Nat) (h : 0 < data.length) :
    (onWrite data writer peers).meshSends = (onWrite2 data).meshSends ∧
    (onWrite2 data).meshSends = [⟨none, data⟩] := by
  exact ⟨by simp [onWrite, onWrite2, h], rfl⟩

/-- C10 witness at the payload [3, 4]. -/
theorem c10_variants_agree_witness :
    0 < ([3, 4] : Payload).length ∧
    (onWrite [3, 4] 5 []).meshSends = (onWrite2 [3, 4]).meshSends :=
  ⟨by decide, (c10_variants_agree [3, 4] 5 [] (by decide)).1⟩

end BitChatRelay
